import Mathlib

/-!
# Verification of the collaborative session and persistence engine

Shallow embedding of the collaborative-editing core of the blogpost
repository, together with theorems settling the specification claims.

The embedded source files are:
* `src/app/editor/[id]/page.tsx` (two revisions are present in the dump:
  the first, without a fetch-failure branch, is embedded in `PageV1`;
  the second, with the `fetchWarning` branch, in `PageV2`);
* `src/components/Editor/BlogEditor.tsx` (client session, reconciliation
  logic, `setEditable` effect);
* `src/collab-server/src/index.ts` (the Hocuspocus server configuration:
  the `fetch` and `store` database callbacks, and the room lifecycle the
  file itself documents in its trailing comments).
-/

/-- The capability of a Session: `editable` (may mutate) or `observer`
(read-only), as in the spec's Access Gate. -/
inductive Capability where
  | editable
  | observer
deriving DecidableEq, Repr

namespace PageV1

/-- The inputs the editor page's access computation depends on:
the `?mode=view` query flag (`viewMode`, page.tsx line 28), the connecting
user's email if logged in (`user?.email`), the post's stored author
(`data.username`), and the post's `allowCollaboration` flag (nullable in
the row, hence `Option Bool`). -/
structure AccessInput where
  viewMode : Bool
  userEmail : Option String
  authorUsername : String
  allowCollaboration : Option Bool

/-- The `isAuthor` state of the page: initialised `false`, and set to
`user.email === data.username` only when a user email is present and
`viewMode` is off (page.tsx lines 54–60). -/
def isAuthor (i : AccessInput) : Bool :=
  match i.userEmail with
  | some e => !i.viewMode && (e == i.authorUsername)
  | none => false

/-- Embeds `const allowCollaboration = post.allowCollaboration ?? false`
(page.tsx line 88). -/
def allowCollaborationFlag (i : AccessInput) : Bool :=
  i.allowCollaboration.getD false

/-- Embeds `const readOnly = viewMode || (!isAuthor && !allowCollaboration)`
(page.tsx line 89). -/
def readOnly (i : AccessInput) : Bool :=
  i.viewMode || (!isAuthor i && !allowCollaborationFlag i)

/-- The capability the page grants the session: `observer` exactly when
`readOnly` holds, else `editable`. -/
def capability (i : AccessInput) : Capability :=
  if readOnly i then .observer else .editable

/-- Whether the connecting user's identity equals the stored author
identity (ignoring the view-mode flag). -/
def identityMatches (i : AccessInput) : Bool :=
  match i.userEmail with
  | some e => e == i.authorUsername
  | none => false

/-- Written from the spec's words (§4.6 Access Gate), for comparison with
`capability`: rules in priority order — explicit observer-mode request
yields `observer`; else author identity match yields `editable`; else
`allowCollaboration == true` yields `editable`; else `observer`. -/
def specRuleCapability (i : AccessInput) : Capability :=
  if i.viewMode then .observer
  else if identityMatches i then .editable
  else if allowCollaborationFlag i then .editable
  else .observer

/-- Written from the spec's words (§3 Access Policy), for comparison with
`capability`: `editable` iff (user is the author) OR (`allowCollaboration`
is true AND no explicit observer-mode request). -/
def specIffCapability (i : AccessInput) : Capability :=
  if identityMatches i || (allowCollaborationFlag i && !i.viewMode) then
    .editable
  else .observer

end PageV1

/-- C2: the page's capability computation agrees with the spec's
priority-ordered rules on every input. -/
theorem pageV1_capability_eq_specRule (i : PageV1.AccessInput) :
    PageV1.capability i = PageV1.specRuleCapability i := by
  rcases i with ⟨vm, ue, au, ac⟩
  cases ue with
  | none =>
      cases vm <;> cases hac : ac.getD false <;>
        simp [PageV1.capability, PageV1.specRuleCapability, PageV1.readOnly,
          PageV1.isAuthor, PageV1.identityMatches, PageV1.allowCollaborationFlag,
          hac]
  | some e =>
      cases vm <;> cases hac : ac.getD false <;> cases he : (e == au) <;>
        simp [PageV1.capability, PageV1.specRuleCapability, PageV1.readOnly,
          PageV1.isAuthor, PageV1.identityMatches, PageV1.allowCollaborationFlag,
          hac, he]

/-- An input on which the spec's §3 iff-formula disagrees with the code:
the author themselves opening the page with `?mode=view`. -/
def authorInViewMode : PageV1.AccessInput :=
  { viewMode := true
    userEmail := some "alice@example.com"
    authorUsername := "alice@example.com"
    allowCollaboration := some false }

/-- C3 counterexample: the claim says an author who explicitly requests
observer mode is still granted `editable`; on the code, `?mode=view`
forces `observer` even for the author, so the claimed iff fails at
`authorInViewMode`. -/
theorem pageV1_capability_ne_specIff :
    PageV1.identityMatches authorInViewMode = true ∧
      PageV1.specIffCapability authorInViewMode = Capability.editable ∧
      PageV1.capability authorInViewMode = Capability.observer := by
  refine ⟨by decide, by decide, by decide⟩

/-- C3 amended: `editable` is granted iff the client did not request
observer mode AND (the user is the author OR `allowCollaboration` is
true); in particular an author who requests observer mode gets
`observer`. -/
theorem pageV1_capability_iff_amended (i : PageV1.AccessInput) :
    PageV1.capability i = Capability.editable ↔
      (i.viewMode = false ∧
        (PageV1.identityMatches i = true ∨
          PageV1.allowCollaborationFlag i = true)) := by
  rcases i with ⟨vm, ue, au, ac⟩
  cases ue with
  | none =>
      cases vm <;> cases hac : ac.getD false <;>
        simp [PageV1.capability, PageV1.readOnly, PageV1.isAuthor,
          PageV1.identityMatches, PageV1.allowCollaborationFlag, hac]
  | some e =>
      cases vm <;> cases hac : ac.getD false <;> cases he : (e == au) <;>
        simp [PageV1.capability, PageV1.readOnly, PageV1.isAuthor,
          PageV1.identityMatches, PageV1.allowCollaborationFlag, hac, he]

namespace PageV2

/-- The fields of the fetched post that the second revision of the editor
page reads: the stored author (`data.username`) and the nullable
`allowCollaboration` flag. -/
structure PostData where
  username : String
  allowCollaboration : Option Bool

/-- Outcome of `loadPost` (page.tsx second revision, lines 136–166):
a successful fetch with the post body and the current user's email, a
non-2xx HTTP response, or a thrown network error. -/
inductive LoadOutcome where
  | ok (post : PostData) (userEmail : Option String)
  | httpNotOk
  | networkError

/-- The page state after `loadPost` settles: `fetchWarning`, the post (still
`none` on failure), and `isAuthor` (only ever set on a successful fetch,
when a user email is present and `viewMode` is off). -/
structure PageState where
  fetchWarning : Bool
  post : Option PostData
  isAuthor : Bool

/-- The `loadPost` flow (second revision): non-OK responses and thrown fetches both
set `fetchWarning` and return early, leaving `post` and `isAuthor` at their
initial values. -/
def loadPost (viewMode : Bool) : LoadOutcome → PageState
  | .ok p u =>
      { fetchWarning := false
        post := some p
        isAuthor :=
          match u with
          | some e => !viewMode && (e == p.username)
          | none => false }
  | .httpNotOk => { fetchWarning := true, post := none, isAuthor := false }
  | .networkError => { fetchWarning := true, post := none, isAuthor := false }

/-- Embeds `const allowCollaboration = post?.allowCollaboration ?? false`
(second revision, line 174). -/
def allowCollaborationFlag (st : PageState) : Bool :=
  ((st.post.bind fun p => p.allowCollaboration).getD false)

/-- Embeds `const readOnly = fetchWarning ? viewMode : viewMode || (!isAuthor &&
!allowCollaboration)` (second revision, lines 175–177). -/
def readOnly (viewMode : Bool) (st : PageState) : Bool :=
  if st.fetchWarning then viewMode
  else viewMode || (!st.isAuthor && !allowCollaborationFlag st)

/-- The `isOwner` prop passed to `BlogEditor`:
`fetchWarning ? true : isAuthor` (second revision, line 202). -/
def isOwnerProp (st : PageState) : Bool :=
  if st.fetchWarning then true else st.isAuthor

end PageV2

/-- C10: whenever the post fetch fails — a non-OK HTTP response or a thrown
network error — the page grants full edit capability without any authorship
or `allowCollaboration` check: `readOnly` equals the explicit view-mode
flag alone, and the owner-only controls are enabled (`isOwner` forced
`true`). -/
theorem pageV2_fetch_failure_grants_edit (viewMode : Bool) :
    (PageV2.readOnly viewMode (PageV2.loadPost viewMode .httpNotOk) = viewMode ∧
      PageV2.isOwnerProp (PageV2.loadPost viewMode .httpNotOk) = true) ∧
    (PageV2.readOnly viewMode (PageV2.loadPost viewMode .networkError) = viewMode ∧
      PageV2.isOwnerProp (PageV2.loadPost viewMode .networkError) = true) := by
  cases viewMode <;>
    simp [PageV2.readOnly, PageV2.loadPost, PageV2.isOwnerProp]

namespace Reconciliation

/-- The `handleSync` handler (BlogEditor.tsx lines 192–198): reads the length of the
Yjs XML fragment `default`; if it is `0` and `initialContent` is truthy
(a non-empty string), issues the single local mutation
`editor.commands.setContent(initialContent)`, returned here as the seeded
payload; otherwise no mutation is issued. -/
def handleSync (yLen : Nat) (initialContent : String) : Option String :=
  if yLen == 0 && initialContent != "" then some initialContent else none

/-- How many times the seed check (`handleSync`) runs during one session,
from BlogEditor.tsx lines 200–206: if the provider is already synced when
the effect runs, `handleSync` is called once directly; otherwise it is
registered as a `'synced'` listener and — since the listener is only
removed by the effect's cleanup — runs at every `'synced'` emission of the
session. -/
def checkRuns (isSyncedAtMount : Bool) (syncedEvents : Nat) : Nat :=
  if isSyncedAtMount then 1 else syncedEvents

end Reconciliation

/-- C4: at a sync point, if the Engine reports empty and a non-empty
snapshot was supplied, exactly one seed mutation (setting the snapshot) is
issued; if the Engine reports non-empty, no seed mutation is issued
regardless of the snapshot. -/
theorem handleSync_seed_exactly_once (yLen : Nat) (initialContent : String) :
    (yLen = 0 → initialContent ≠ "" →
      Reconciliation.handleSync yLen initialContent = some initialContent) ∧
    (yLen ≠ 0 → Reconciliation.handleSync yLen initialContent = none) := by
  constructor
  · intro h0 hne
    subst h0
    simp [Reconciliation.handleSync, hne]
  · intro hne
    simp [Reconciliation.handleSync, hne]

/-- C4 witness: with the Engine empty and snapshot `"Hello world"`, one
seed mutation carrying the snapshot; with the Engine non-empty, none. -/
theorem handleSync_seed_exactly_once_witness :
    Reconciliation.handleSync 0 "Hello world" = some "Hello world" ∧
      Reconciliation.handleSync 3 "Hello world" = none :=
  ⟨(handleSync_seed_exactly_once 0 "Hello world").1 rfl (by decide),
    (handleSync_seed_exactly_once 3 "Hello world").2 (by decide)⟩

/-- C5 counterexample: on a session that was not yet synced at mount and
then receives two `'synced'` events, the seed check runs twice — the
`'synced'` listener is not removed after its first firing — refuting
"the empty-Engine seed check runs at most once during the session's
lifetime". -/
theorem checkRuns_twice_counterexample :
    Reconciliation.checkRuns false 2 = 2 ∧
      ¬ Reconciliation.checkRuns false 2 ≤ 1 := by
  decide

/-- C5 amended: the seed check runs at every `'synced'` event of the
session (not at most once), but the seed mutation is never issued at an
event where the Engine reports non-empty content — across arbitrarily many
repeated `'synced'` events. -/
theorem seed_never_issued_when_nonempty (trace : List Nat)
    (initialContent : String) (yLen : Nat) (hmem : yLen ∈ trace)
    (hne : yLen ≠ 0) :
    Reconciliation.handleSync yLen initialContent = none := by
  simp [Reconciliation.handleSync, hne]

/-- C5 amended witness: in a session whose two `'synced'` events see Engine
lengths 5 and 7, no seed is issued at the first of them. -/
theorem seed_never_issued_when_nonempty_witness :
    Reconciliation.handleSync 5 "Hello world" = none :=
  seed_never_issued_when_nonempty [5, 7] "Hello world" 5 (by decide)
    (by decide)

namespace CollabServer

/-- The Room's CRDT Document Engine, observed through the update frames it
has applied (frames are opaque byte sequences). Recording applications
makes "the Engine state is unchanged by that frame" checkable. -/
structure Engine where
  applied : List (List Nat)
deriving DecidableEq, Repr

/-- Applying a received update frame to the Engine. -/
def Engine.applyUpdate (e : Engine) (u : List Nat) : Engine :=
  ⟨e.applied ++ [u]⟩

/-- One client's connection to the server, tagged with the capability its
page computed. The capability exists only client-side: the provider
connects with `url`, `name` and `document` alone (BlogEditor.tsx lines
128–132), so no capability ever reaches the server. -/
structure Session where
  sessionId : Nat
  capability : Capability
  connected : Bool
deriving DecidableEq, Repr

/-- A Room: the in-memory Engine plus the attached Sessions. -/
structure Room where
  engine : Engine
  sessions : List Session
deriving DecidableEq, Repr

/-- The server's handling of a received CRDT update frame, from the
configuration in src/collab-server/src/index.ts lines 14–58: the Hocuspocus
instance is constructed with only the `Database` extension (the `fetch` and
`store` hooks); no `onAuthenticate` or authorization hook is configured and
no capability information is transmitted, so the frame is applied to the
Room's document and broadcast, and the sender is never disconnected —
whatever its client-side capability. -/
def handleUpdateFrame (room : Room) (_sender : Session) (u : List Nat) :
    Room :=
  { room with engine := room.engine.applyUpdate u }

/-- The client-side `setEditable` effect (BlogEditor.tsx lines 179–183):
after the editor initialises, `editor.setEditable(!readOnly)`. -/
def editorEditable (readOnly : Bool) : Bool :=
  !readOnly

/-- A Room holding a single observer Session. -/
def observerRoom : Room :=
  { engine := ⟨[]⟩
    sessions := [{ sessionId := 1, capability := .observer, connected := true }] }

/-- The observer Session attached to `observerRoom`. -/
def observerSession : Session :=
  { sessionId := 1, capability := .observer, connected := true }

/-- A concrete CRDT update frame (opaque bytes). -/
def mutationFrame : List Nat := [1, 2, 3]

end CollabServer

/-- C1 counterexample: an observer Session sending a mutation frame is not
disconnected by the server, and the Room's Engine state does change — the
server applies the frame without any capability validation. -/
theorem observer_mutation_not_rejected :
    CollabServer.observerSession.capability = Capability.observer ∧
    (CollabServer.handleUpdateFrame CollabServer.observerRoom
        CollabServer.observerSession CollabServer.mutationFrame).sessions =
      CollabServer.observerRoom.sessions ∧
    (CollabServer.handleUpdateFrame CollabServer.observerRoom
        CollabServer.observerSession CollabServer.mutationFrame).engine ≠
      CollabServer.observerRoom.engine := by
  refine ⟨rfl, rfl, by decide⟩

/-- C1 amended: capability is enforced only client-side — an observer
session's editor is set non-editable, blocking local input, while the
server applies any received update frame to the Room's Engine regardless
of the sender's capability and never disconnects the sender. -/
theorem observer_enforcement_client_side_only (room : CollabServer.Room)
    (s : CollabServer.Session) (u : List Nat)
    (hobs : s.capability = Capability.observer) :
    CollabServer.editorEditable true = false ∧
    (CollabServer.handleUpdateFrame room s u).sessions = room.sessions ∧
    (CollabServer.handleUpdateFrame room s u).engine =
      room.engine.applyUpdate u := by
  exact ⟨rfl, rfl, rfl⟩

/-- C1 amended witness: the concrete observer session and frame. -/
theorem observer_enforcement_client_side_only_witness :
    CollabServer.editorEditable true = false ∧
    (CollabServer.handleUpdateFrame CollabServer.observerRoom
        CollabServer.observerSession CollabServer.mutationFrame).sessions =
      CollabServer.observerRoom.sessions ∧
    (CollabServer.handleUpdateFrame CollabServer.observerRoom
        CollabServer.observerSession CollabServer.mutationFrame).engine =
      CollabServer.observerRoom.engine.applyUpdate CollabServer.mutationFrame :=
  observer_enforcement_client_side_only CollabServer.observerRoom
    CollabServer.observerSession CollabServer.mutationFrame rfl

namespace Database

/-- What the `pool.query` of the fetch callback can yield for a document
identifier: no matching row, a row whose `yjsState` column is null or holds
bytes, or a rejection with a transient I/O error (timeout or connection
error). -/
inductive QueryResult where
  | noRow
  | row (yjsState : Option (List Nat))
  | ioError (msg : String)
deriving DecidableEq, Repr

/-- The `fetch` callback (index.ts lines 22–38): `result.rows[0]?.yjsState`
is returned as bytes when present; a missing row or a null column yields
`null`. There is no try/catch around `await pool.query`, so a query
rejection propagates out of the callback as an error. -/
def fetchCallback : QueryResult → Except String (Option (List Nat))
  | .noRow => .ok none
  | .row none => .ok none
  | .row (some b) => .ok (some b)
  | .ioError m => .error m

end Database

/-- C8 counterexample: a transient I/O error in the durable-store fetch is
not treated as "no prior state" — the fetch callback has no error handling,
so the failure propagates as an error instead of returning `null`. -/
theorem fetch_ioError_propagates :
    Database.fetchCallback (.ioError "connection timeout") =
        Except.error "connection timeout" ∧
      Database.fetchCallback (.ioError "connection timeout") ≠
        Except.ok none := by
  refine ⟨rfl, fun h => Except.noConfusion h⟩

/-- C8 amended: the fetch callback returns the stored bytes for a row with
a snapshot and `null` for a missing row or null column, but a transient
I/O failure of the query propagates out of the callback uncaught — it is
not converted into "no prior state". -/
theorem fetchCallback_characterisation :
    (∀ m, Database.fetchCallback (.ioError m) = Except.error m) ∧
    Database.fetchCallback .noRow = Except.ok none ∧
    Database.fetchCallback (.row none) = Except.ok none ∧
    (∀ b, Database.fetchCallback (.row (some b)) = Except.ok (some b)) := by
  exact ⟨fun _ => rfl, rfl, rfl, fun _ => rfl⟩

namespace Database

/-- One row of the `"Post"` table, restricted to the columns the claims
talk about: the binary snapshot (`yjsState`, nullable), the plain-text/HTML
content column, the title (standing for the remaining columns owned by the
CRUD path), and the last-updated timestamp. -/
structure PostRow where
  yjsState : Option (List Nat)
  content : String
  title : String
  updatedAt : Nat
deriving DecidableEq, Repr

/-- The `store` callback's SQL effect (index.ts lines 42–52):
`UPDATE "Post" SET "yjsState" = $1, "updatedAt" = NOW() WHERE id = $2` —
on the row whose id matches, the snapshot column is set to the serialized
state and the timestamp to now; every other row, and every other column of
the matching row, is untouched. -/
def storeQuery (db : String → Option PostRow) (state : List Nat)
    (postId : String) (now : Nat) : String → Option PostRow :=
  fun j =>
    if j = postId then
      (db j).map fun r => { r with yjsState := some state, updatedAt := now }
    else db j

end Database

/-- C9: a store call for a document identifier modifies only that
document's row — rows of all other identifiers are unchanged — and within
that row writes only the binary snapshot and the last-updated timestamp:
the plain-text/HTML content column (and the title) keep their previous
values. -/
theorem storeQuery_frame_effect (db : String → Option Database.PostRow)
    (state : List Nat) (postId : String) (now : Nat) :
    (∀ j, j ≠ postId → Database.storeQuery db state postId now j = db j) ∧
    (Database.storeQuery db state postId now postId).map
        Database.PostRow.content = (db postId).map Database.PostRow.content ∧
    (Database.storeQuery db state postId now postId).map
        Database.PostRow.title = (db postId).map Database.PostRow.title ∧
    (∀ r, db postId = some r →
      Database.storeQuery db state postId now postId =
        some { yjsState := some state, content := r.content,
               title := r.title, updatedAt := now }) := by
  refine ⟨fun j hj => ?_, ?_, ?_, fun r hr => ?_⟩
  · simp [Database.storeQuery, hj]
  · cases h : db postId <;> simp [Database.storeQuery, h]
  · cases h : db postId <;> simp [Database.storeQuery, h]
  · simp [Database.storeQuery, hr]

/-- A two-row database for exercising the store call. -/
def sampleDb : String → Option Database.PostRow :=
  fun j =>
    if j = "post-42" then
      some { yjsState := none, content := "<p>Draft</p>", title := "Draft",
             updatedAt := 10 }
    else if j = "post-7" then
      some { yjsState := some [9], content := "<p>Other</p>", title := "Other",
             updatedAt := 4 }
    else none

/-- C9 witness: storing bytes `[1, 2]` for `post-42` at time 20 leaves
`post-7`'s row unchanged, preserves `post-42`'s content column, and writes
exactly the snapshot and timestamp of `post-42`'s row. -/
theorem storeQuery_frame_effect_witness :
    Database.storeQuery sampleDb [1, 2] "post-42" 20 "post-7" =
        sampleDb "post-7" ∧
      Database.storeQuery sampleDb [1, 2] "post-42" 20 "post-42" =
        some { yjsState := some [1, 2], content := "<p>Draft</p>",
               title := "Draft", updatedAt := 20 } :=
  ⟨(storeQuery_frame_effect sampleDb [1, 2] "post-42" 20).1 "post-7"
      (by decide),
    (storeQuery_frame_effect sampleDb [1, 2] "post-42" 20).2.2.2
      { yjsState := none, content := "<p>Draft</p>", title := "Draft",
        updatedAt := 10 }
      (by simp [sampleDb])⟩

namespace Registry

/-- A Room held in server memory: its Engine state (observed through its
serialization, opaque bytes — `[]` is the empty document) and the number
of attached Sessions. -/
structure RoomR where
  engineState : List Nat
  sessionCount : Nat
deriving DecidableEq, Repr

/-- The server process: the in-memory room map (at most one Room per
document identifier), the durable `yjsState` column per document
identifier, and the log of `fetch` and `store` callback invocations.
The room lifecycle is modelled from the behaviour documented in
src/collab-server/src/index.ts lines 69–122 (the Hocuspocus library
internals are a consumed dependency, not part of the repository): `fetch`
fires when the first client connects to a room that is not in memory and
not on later connects; `store` fires when the last client disconnects,
after which the room is removed from memory. -/
structure ServerState where
  rooms : String → Option RoomR
  db : String → Option (List Nat)
  fetchLog : List String
  storeLog : List (String × List Nat)

/-- The connection-lifecycle events a document's clients generate, plus
applied update frames (which extend the Engine's serialized state). -/
inductive Event where
  | connect (docId : String)
  | update (docId : String) (bytes : List Nat)
  | disconnect (docId : String)

/-- One lifecycle step. `connect` to an in-memory room only attaches a
Session; `connect` to an absent room invokes `fetch` (seeding the Engine
from the stored snapshot, empty when null) and creates the room with one
Session. `disconnect` of the last Session invokes `store` with the
then-current serialized Engine state — writing the snapshot column — and
only then removes the room from memory. -/
def step (s : ServerState) : Event → ServerState
  | .connect docId =>
    match s.rooms docId with
    | some r =>
        { s with
          rooms := fun j =>
            if j = docId then
              some { r with sessionCount := r.sessionCount + 1 }
            else s.rooms j }
    | none =>
        { s with
          rooms := fun j =>
            if j = docId then
              some { engineState := (s.db docId).getD [], sessionCount := 1 }
            else s.rooms j
          fetchLog := s.fetchLog ++ [docId] }
  | .update docId bytes =>
    match s.rooms docId with
    | some r =>
        { s with
          rooms := fun j =>
            if j = docId then
              some { r with engineState := r.engineState ++ bytes }
            else s.rooms j }
    | none => s
  | .disconnect docId =>
    match s.rooms docId with
    | some r =>
        if r.sessionCount ≤ 1 then
          { s with
            rooms := fun j => if j = docId then none else s.rooms j
            db := fun j => if j = docId then some r.engineState else s.db j
            storeLog := s.storeLog ++ [(docId, r.engineState)] }
        else
          { s with
            rooms := fun j =>
              if j = docId then
                some { r with sessionCount := r.sessionCount - 1 }
              else s.rooms j }
    | none => s

/-- Running a sequence of events. -/
def run (s : ServerState) (es : List Event) : ServerState :=
  es.foldl step s

/-- While a Room is in memory, further connects to it attach Sessions
without touching the Durable Store Adapter: the fetch log is unchanged and
the Room stays in memory. -/
theorem connects_no_refetch (docId : String) :
    ∀ (m : Nat) (s : ServerState) (r : RoomR), s.rooms docId = some r →
      (run s (List.replicate m (Event.connect docId))).fetchLog = s.fetchLog ∧
        ∃ r2, (run s (List.replicate m (Event.connect docId))).rooms docId =
          some r2 := by
  intro m
  induction m with
  | zero => intro s r hr; exact ⟨rfl, r, hr⟩
  | succ n ih =>
      intro s r hr
      have hstep :
          step s (Event.connect docId) =
            { s with
              rooms := fun j =>
                if j = docId then
                  some { r with sessionCount := r.sessionCount + 1 }
                else s.rooms j } := by
        simp [step, hr]
      have hmem :
          (step s (Event.connect docId)).rooms docId =
            some { r with sessionCount := r.sessionCount + 1 } := by
        rw [hstep]; simp
      have h := ih (step s (Event.connect docId)) _ hmem
      have hlog : (step s (Event.connect docId)).fetchLog = s.fetchLog := by
        rw [hstep]
      constructor
      · calc (run s (List.replicate (n + 1) (Event.connect docId))).fetchLog
            = (run (step s (Event.connect docId))
                (List.replicate n (Event.connect docId))).fetchLog := by
              simp [run, List.replicate]
          _ = (step s (Event.connect docId)).fetchLog := h.1
          _ = s.fetchLog := hlog
      · obtain ⟨r2, hr2⟩ := h.2
        refine ⟨r2, ?_⟩
        calc (run s (List.replicate (n + 1) (Event.connect docId))).rooms docId
            = (run (step s (Event.connect docId))
                (List.replicate n (Event.connect docId))).rooms docId := by
              simp [run, List.replicate]
          _ = some r2 := hr2

end Registry

/-- C6: for any number `M ≥ 1` of connections to a document identifier
whose Room is not yet in memory and that was never fetched before, the
Durable Store Adapter's fetch runs exactly once — on the connect that
creates the Room — and never again while the Room remains in memory,
however many Sessions attach. -/
theorem fetch_once_per_room_lifetime (s : Registry.ServerState)
    (docId : String) (M : Nat) (hroom : s.rooms docId = none)
    (hlog : s.fetchLog.count docId = 0) (hM : 1 ≤ M) :
    (Registry.run s
        (List.replicate M (Registry.Event.connect docId))).fetchLog.count
      docId = 1 := by
  obtain ⟨m, rfl⟩ : ∃ m, M = m + 1 := ⟨M - 1, (Nat.succ_pred_eq_of_pos hM).symm⟩
  have hstep :
      Registry.step s (Registry.Event.connect docId) =
        { s with
          rooms := fun j =>
            if j = docId then
              some { engineState := (s.db docId).getD [], sessionCount := 1 }
            else s.rooms j
          fetchLog := s.fetchLog ++ [docId] } := by
    simp [Registry.step, hroom]
  have hmem :
      (Registry.step s (Registry.Event.connect docId)).rooms docId =
        some { engineState := (s.db docId).getD [], sessionCount := 1 } := by
    rw [hstep]; simp
  have h := Registry.connects_no_refetch docId m
    (Registry.step s (Registry.Event.connect docId)) _ hmem
  have hrun :
      (Registry.run s
          (List.replicate (m + 1) (Registry.Event.connect docId))).fetchLog =
        s.fetchLog ++ [docId] := by
    calc (Registry.run s
            (List.replicate (m + 1) (Registry.Event.connect docId))).fetchLog
        = (Registry.run (Registry.step s (Registry.Event.connect docId))
            (List.replicate m (Registry.Event.connect docId))).fetchLog := by
          simp [Registry.run, List.replicate]
      _ = (Registry.step s (Registry.Event.connect docId)).fetchLog := h.1
      _ = s.fetchLog ++ [docId] := by rw [hstep]
  rw [hrun]
  simp [List.count_append, hlog]

/-- A fresh server: no rooms in memory, nothing stored, empty logs. -/
def freshServer : Registry.ServerState :=
  { rooms := fun _ => none
    db := fun _ => none
    fetchLog := []
    storeLog := [] }

/-- C6 witness: three connections to `post-42` on a fresh server invoke
fetch exactly once. -/
theorem fetch_once_per_room_lifetime_witness :
    (Registry.run freshServer
        (List.replicate 3 (Registry.Event.connect "post-42"))).fetchLog.count
      "post-42" = 1 :=
  fetch_once_per_room_lifetime freshServer "post-42" 3 rfl rfl
    (by decide)

namespace Registry

/-- A process restart: in-memory rooms and logs are wiped, the durable
store survives. -/
def restart (s : ServerState) : ServerState :=
  { rooms := fun _ => none
    db := s.db
    fetchLog := []
    storeLog := [] }

end Registry

/-- C7: when a Room's Session set transitions to empty, a store call
carrying the then-current serialized Engine state is issued and settles
within the same eviction step — the snapshot column holds that state and
the Room is removed from memory — and a process restart immediately
afterwards reconnects to the persisted state rather than an empty
document. -/
theorem idle_persist_before_eviction (s : Registry.ServerState)
    (docId : String) (r : Registry.RoomR) (hr : s.rooms docId = some r)
    (hcount : r.sessionCount = 1) :
    (Registry.step s (Registry.Event.disconnect docId)).storeLog =
        s.storeLog ++ [(docId, r.engineState)] ∧
    (Registry.step s (Registry.Event.disconnect docId)).db docId =
        some r.engineState ∧
    (Registry.step s (Registry.Event.disconnect docId)).rooms docId = none ∧
    (Registry.step
        (Registry.restart (Registry.step s (Registry.Event.disconnect docId)))
        (Registry.Event.connect docId)).rooms docId =
      some { engineState := r.engineState, sessionCount := 1 } := by
  have hstep :
      Registry.step s (Registry.Event.disconnect docId) =
        { s with
          rooms := fun j => if j = docId then none else s.rooms j
          db := fun j => if j = docId then some r.engineState else s.db j
          storeLog := s.storeLog ++ [(docId, r.engineState)] } := by
    simp [Registry.step, hr, hcount]
  refine ⟨by rw [hstep], by rw [hstep]; simp, by rw [hstep]; simp, ?_⟩
  rw [hstep]
  simp [Registry.restart, Registry.step]

/-- A server holding one Room `post-42` with Engine state `[1, 2]` and a
single attached Session. -/
def oneSessionServer : Registry.ServerState :=
  { rooms := fun j =>
      if j = "post-42" then some { engineState := [1, 2], sessionCount := 1 }
      else none
    db := fun _ => none
    fetchLog := []
    storeLog := [] }

/-- C7 witness: disconnecting the only Session of `post-42` stores its
Engine state `[1, 2]`, evicts the Room, and after a restart the next
connect seeds a Room with that persisted state. -/
theorem idle_persist_before_eviction_witness :
    (Registry.step oneSessionServer
        (Registry.Event.disconnect "post-42")).storeLog =
        oneSessionServer.storeLog ++ [("post-42", [1, 2])] ∧
    (Registry.step oneSessionServer
        (Registry.Event.disconnect "post-42")).db "post-42" = some [1, 2] ∧
    (Registry.step oneSessionServer
        (Registry.Event.disconnect "post-42")).rooms "post-42" = none ∧
    (Registry.step
        (Registry.restart
          (Registry.step oneSessionServer (Registry.Event.disconnect "post-42")))
        (Registry.Event.connect "post-42")).rooms "post-42" =
      some { engineState := [1, 2], sessionCount := 1 } :=
  idle_persist_before_eviction oneSessionServer "post-42"
    { engineState := [1, 2], sessionCount := 1 } (by simp [oneSessionServer])
    rfl

/-- C3 amended witness: a logged-in author without view mode is granted
`editable` under the amended rule. -/
theorem pageV1_capability_iff_amended_witness :
    PageV1.capability
        { viewMode := false
          userEmail := some "alice@example.com"
          authorUsername := "alice@example.com"
          allowCollaboration := some false } = Capability.editable :=
  (pageV1_capability_iff_amended
      { viewMode := false
        userEmail := some "alice@example.com"
        authorUsername := "alice@example.com"
        allowCollaboration := some false }).mpr
    ⟨rfl, Or.inl (by decide)⟩
